import Mathlib

/-!
# Verification of the Aza Man orchestration core

Shallow embedding of the tool registry (`src/tools.py`), the orchestrator
(`src/graph.py`) and the session-state normalization (`src/state.py`,
`project_config.py`).  Python floats are modelled as exact rationals `ℚ`;
dictionaries returned by tools become structures; functions that `raise`
become `Except String`-valued functions.
-/

namespace AzaMan

/-! ## Tool registry (`src/tools.py`) -/

/-- A savings goal as accepted by the `budget` tool: either a percentage
string `"p%"` (the branch taken when the argument is a string containing
`"%"`; `float(savings_goal.strip("%"))` recovers `p`), or a plain number. -/
inductive SavingsGoal where
  | pctStr (p : ℚ)
  | amt (a : ℚ)
deriving DecidableEq, Repr

/-- The dictionary returned by the `budget` tool (the formatted `message`
field carries no further data and is not modelled). -/
structure BudgetResult where
  income : ℚ
  savings : ℚ
  budget_for_expenses : ℚ
  currency : String
deriving DecidableEq, Repr

/-- `budget` from `src/tools.py` lines 29–41: resolve the goal (percentage
of income, or the number itself), set `savings` to it and
`budget_for_expenses = income - savings`.  The Python code performs no
validation of `income` or of the goal's range. -/
def budget (income : ℚ) (savings_goal : SavingsGoal) (currency : String) :
    BudgetResult :=
  let resolved : ℚ :=
    match savings_goal with
    | .pctStr p => p / 100 * income
    | .amt a => a
  let savings := resolved
  { income := income
    savings := savings
    budget_for_expenses := income - savings
    currency := currency }

/-- One expense entry: a dictionary with an `amount` and a `category`. -/
structure Expense where
  amount : ℚ
  category : String
deriving DecidableEq, Repr

/-- The dictionary returned by `log_expenses` (again minus `message`). -/
structure LogResult where
  expense : ℚ
  expenses : List Expense
  currency : String
deriving DecidableEq, Repr

/-- `log_expenses` from `src/tools.py` lines 65–71:
`total_expense = sum(e["amount"] for e in expenses)` (Python `sum` is a
left fold starting from `0`) and the input list is returned unchanged.
No validation is performed: an empty list or non-positive amounts are
summed like any other input. -/
def log_expenses (expenses : List Expense) (currency : String) : LogResult :=
  let total_expense := expenses.foldl (fun acc e => acc + e.amount) 0
  { expense := total_expense
    expenses := expenses
    currency := currency }

/-- The division loop of `math_tool` (`src/tools.py` lines 115–120):
`result = numbers[0]; for num in numbers[1:]: if num == 0: raise; result /= num`. -/
def divLoop (result : ℚ) : List ℚ → Except String ℚ
  | [] => .ok result
  | num :: rest =>
      if num = 0 then .error "Division by zero."
      else divLoop (result / num) rest

/-- The subtraction loop of `math_tool` (`src/tools.py` lines 103–106). -/
def subLoop (result : ℚ) : List ℚ → ℚ
  | [] => result
  | num :: rest => subLoop (result - num) rest

/-- `math_tool` from `src/tools.py` lines 96–121, with `raise ValueError`
modelled as `Except.error` carrying the message. -/
def math_tool (numbers : List ℚ) (operation : String) : Except String ℚ :=
  if numbers = [] then .error "At least one number required."
  else if operation = "add" then .ok (numbers.foldl (· + ·) 0)
  else if operation = "subtract" then
    if numbers.length < 2 then .error "Subtract needs two numbers."
    else .ok (subLoop (numbers.headI) numbers.tail)
  else if operation = "multiply" then .ok (numbers.foldl (· * ·) 1)
  else if operation = "divide" then
    if numbers.length < 2 then .error "Divide needs two numbers."
    else divLoop (numbers.headI) numbers.tail
  else .error ("Unsupported operation: " ++ operation ++ ".")

/-- `set_username` from `src/tools.py` lines 126–139: echoes the username
and a confirmation message; no validation. -/
def set_username (username : String) : String × String :=
  (username, "Username set to " ++ username)

/-! ## Orchestrator (`src/graph.py`) -/

/-- A tool call as dispatched by `store_memory`: the `name` key is encoded
by the constructor, `args` by its typed fields, and `id` is kept for the
tool-result correlation.  `unknownCall` covers every name outside the four
registered tools. -/
inductive ToolCall where
  | budgetCall (income : ℚ) (goal : SavingsGoal) (currency : String) (id : String)
  | logCall (expenses : List Expense) (currency : String) (id : String)
  | mathCall (numbers : List ℚ) (operation : String) (id : String)
  | userCall (username : String) (id : String)
  | unknownCall (name : String) (id : String)
deriving DecidableEq

/-- The correlation id of a tool call (`tc["id"]`). -/
def ToolCall.id : ToolCall → String
  | .budgetCall _ _ _ i => i
  | .logCall _ _ i => i
  | .mathCall _ _ i => i
  | .userCall _ i => i
  | .unknownCall _ i => i

/-- One transcript record: role, content, pending tool calls (empty for
user/tool roles) and, for tool results, the correlating id. -/
structure Message where
  role : String
  content : String
  tool_calls : List ToolCall := []
  tool_call_id : String := ""

/-- Session state (`src/state.py`): transcript plus the financial fields. -/
structure State where
  messages : List Message := []
  username : String := ""
  income : ℚ := 0
  budget_for_expenses : ℚ := 0
  expense : ℚ := 0
  expenses : List Expense := []
  savings_goal : ℚ := 0
  savings : ℚ := 0
  currency : String := ""
  summary : String := ""

/-- `route_message` from `src/graph.py` lines 142–154.  `END` is the
langgraph sentinel `"__end__"`. -/
def route_message (current_state : State) : String :=
  match current_state.messages.getLast? with
  | none => "__end__"
  | some msg =>
      if msg.tool_calls ≠ [] then "store_memory"
      else if current_state.messages.length > 10 then "summarize_conversation"
      else "__end__"

/-- Substring test on character lists, the semantics of Python's
`needle in haystack`: the needle is a prefix of some suffix. -/
def containsSub (p : List Char) : List Char → Bool
  | [] => p.isPrefixOf ([] : List Char)
  | c :: t => p.isPrefixOf (c :: t) || containsSub p t

/-- Python `needle in haystack` on strings. -/
def strContains (needle haystack : String) : Bool :=
  containsSub needle.data haystack.data

/-- Python `content.lower()`, modelled as charwise lowercasing (identical
to CPython on the ASCII text the denylist and claims involve). -/
def pyLower (s : String) : String := ⟨s.data.map Char.toLower⟩

/-- The denylist of `filter_content` (`src/graph.py` line 17). -/
def inappropriate_keywords : List String :=
  ["inappropriate", "offensive", "hate", "violence"]

/-- The fixed replacement emitted by `filter_content`. -/
def warning_message : String :=
  "Warning: Inappropriate content detected. Please provide a financial-related request."

/-- `filter_content` from `src/graph.py` lines 15–21: if any denylist
keyword occurs as a substring of the lower-cased content, the whole
content is replaced by the fixed warning. -/
def filter_content (content : String) : String :=
  if inappropriate_keywords.any (fun keyword => strContains keyword (pyLower content))
  then warning_message
  else content

/-- The `updates` dictionary built by `store_memory`: absent keys are
`none`; a later tool call in the same batch overwrites an earlier value
for the same key.  `messages` holds the tool-result records appended at
the end. -/
structure Updates where
  income : Option ℚ := none
  savings : Option ℚ := none
  budget_for_expenses : Option ℚ := none
  savings_goal : Option ℚ := none
  expense : Option ℚ := none
  expenses : Option (List Expense) := none
  currency : Option String := none
  username : Option String := none
  messages : List Message := []

/-- Rendering of a rational for a result message.  The Python code uses
`"{:,.2f}"`; no claim inspects the digits, so an exact stringifier
stands in for the two-decimal rendering. -/
def fmtMoney (q : ℚ) : String := toString q

/-- One iteration of the `for tc in tool_calls` loop of `store_memory`
(`src/graph.py` lines 75–111): dispatch on the tool name, fold the tool's
result into the `updates` dictionary, and produce that call's result
string.  `current_expenses` is the ledger captured before the loop
(line 73); the `log_expenses` branch adds onto `current_state.expense`
and appends onto `current_expenses`, not onto earlier updates of the
same batch.  A `math_tool` exception is caught and turned into an error
string (lines 108–111); `budget`/`log_expenses`/`set_username` cannot
raise in this embedding because their argument types exclude the
malformed shapes. -/
def execToolCall (current_state : State) (current_expenses : List Expense)
    (u : Updates) : ToolCall → Updates × String
  | .budgetCall income goal currency _ =>
      let result := budget income goal currency
      ({ u with income := some result.income
                savings := some result.savings
                budget_for_expenses := some result.budget_for_expenses
                currency := some result.currency
                savings_goal := some result.savings },
       "Budget created! Income: " ++ fmtMoney result.income ++ " " ++ result.currency ++
         ", Savings: " ++ fmtMoney result.savings ++ " " ++ result.currency ++
         ", Expenses: " ++ fmtMoney result.budget_for_expenses ++ " " ++ result.currency)
  | .logCall expenses currency _ =>
      let result := log_expenses expenses currency
      ({ u with expense := some (result.expense + current_state.expense)
                expenses := some (current_expenses ++ result.expenses)
                currency := some result.currency },
       "Expenses logged! Total: " ++ fmtMoney result.expense ++ " " ++ result.currency)
  | .mathCall numbers operation _ =>
      match math_tool numbers operation with
      | .ok r => (u, fmtMoney r)
      | .error e => (u, "Error: Tool math_tool failed with " ++ e)
  | .userCall username _ =>
      let result := set_username username
      ({ u with username := some username }, result.2)
  | .unknownCall name _ =>
      (u, "Error: Invalid tool " ++ name ++ " requested")

/-- The whole loop of `store_memory`, returning the final `updates`
dictionary and the `results` list in call order. -/
def toolLoop (current_state : State) (current_expenses : List Expense)
    (u : Updates) (results : List String) : List ToolCall → Updates × List String
  | [] => (u, results)
  | tc :: rest =>
      let step := execToolCall current_state current_expenses u tc
      toolLoop current_state current_expenses step.1 (results ++ [step.2]) rest

/-- `store_memory` from `src/graph.py` lines 65–118: read the latest
message's tool calls (empty transcript behaves as no calls), run the
dispatch loop from an empty `updates` dictionary, then attach one
tool-role record per call, correlated by id, as `updates["messages"]`. -/
def store_memory (current_state : State) : Updates :=
  let tool_calls := (current_state.messages.getLastD ⟨"", "", [], ""⟩).tool_calls
  if tool_calls = [] then { messages := [] }
  else
    let current_expenses := current_state.expenses
    let looped := toolLoop current_state current_expenses {} [] tool_calls
    let tool_messages := List.zipWith
      (fun tc result => ⟨"tool", result, [], tc.id⟩ : ToolCall → String → Message)
      tool_calls looped.2
    { looped.1 with messages := tool_messages }

/-- The langgraph merge of a node's returned dictionary into the session
state: every returned key replaces the field, except `messages`, whose
annotated reducer appends. -/
def applyUpdates (s : State) (u : Updates) : State :=
  { messages := s.messages ++ u.messages
    username := u.username.getD s.username
    income := u.income.getD s.income
    budget_for_expenses := u.budget_for_expenses.getD s.budget_for_expenses
    expense := u.expense.getD s.expense
    expenses := u.expenses.getD s.expenses
    savings_goal := u.savings_goal.getD s.savings_goal
    savings := u.savings.getD s.savings
    currency := u.currency.getD s.currency
    summary := s.summary }

/-- One `ExecutingTools` round: the assistant message carrying the batch
is appended to the transcript, then `store_memory` runs on that state and
its updates are merged back. -/
def runToolTurn (s : State) (tcs : List ToolCall) : State :=
  let s' : State := { s with messages := s.messages ++ [⟨"assistant", "", tcs, ""⟩] }
  applyUpdates s' (store_memory s')

/-- The Model Gateway's reply: textual content plus structured tool
calls, as read off the `AIMessage` in `call_model`. -/
structure GwResponse where
  content : String
  tool_calls : List ToolCall

/-- The body of `call_model` (`src/graph.py` lines 29–63) for one gateway
outcome.  The `try` block — invocation, content filter, tool-intent
recovery from JSON-looking text, conversion to a plain dictionary — is
guarded by a blanket `except Exception` that returns an assistant-role
error message instead of re-raising.  The JSON-sniffing step
(`json.loads` on the content) is abstracted by the `sniff` parameter:
`some tc` models content that parses as `{"name": ..., "parameters": ...}`
and is promoted to a tool call with cleared content, `none` models
everything else.  The returned update dictionary holds only `messages`,
matching `return {"messages": [...]}`. -/
def call_model_once (sniff : String → Option ToolCall)
    (gwResult : Except String GwResponse) : List Message :=
  match gwResult with
  | .error e =>
      [⟨"assistant", "Error: Failed to process request due to " ++ e, [], ""⟩]
  | .ok msg =>
      let content := if msg.content ≠ "" then filter_content msg.content else msg.content
      if msg.tool_calls = [] ∧ content ≠ "" then
        match sniff content with
        | some tc => [⟨"assistant", "", [tc], ""⟩]
        | none => [⟨"assistant", content, msg.tool_calls, ""⟩]
      else [⟨"assistant", content, msg.tool_calls, ""⟩]

/-- The tenacity `@retry(stop=stop_after_attempt(n), ...)` wrapper: run
the decorated body; a raised exception (a `.error` result) is retried
until `n` attempts have been made, then surfaced; a normal return stops
immediately.  The second component counts the attempts actually made. -/
def tenacityRetry (body : Nat → Except String α) :
    Nat → Nat → Except String α × Nat
  | attempt, 0 => (body attempt, attempt + 1)
  | attempt, fuel + 1 =>
      match body attempt with
      | .ok a => (.ok a, attempt + 1)
      | .error e =>
          if fuel = 0 then (.error e, attempt + 1)
          else tenacityRetry body (attempt + 1) fuel

/-- `call_model` as deployed: the body above wrapped in
`@retry(stop=stop_after_attempt(3), wait=wait_exponential(...))`.
`gw n` is the gateway's outcome on its `n`-th invocation.  The body never
raises — its internal `except` swallows every gateway exception — so it
always presents `.ok` to the retry wrapper. -/
def call_model (sniff : String → Option ToolCall)
    (gw : Nat → Except String GwResponse) : Except String (List Message) × Nat :=
  tenacityRetry (fun n => .ok (call_model_once sniff (gw n))) 0 3

/-! ## Session-state normalization (`src/state.py`, `project_config.py`) -/

/-- A dynamically typed Python value, as far as `State.__post_init__`'s
`isinstance` checks can distinguish one.  `bool` is listed separately:
in Python it is a subclass of `int` but of neither `float` nor `str`. -/
inductive PyVal where
  | int (n : ℤ)
  | float (q : ℚ)
  | str (s : String)
  | bool (b : Bool)
  | pylist (l : List PyVal)
  | pynone

/-- `isinstance(v, float)`: true exactly for float values (a Python
`int` such as `5000` is not a `float`). -/
def isinst_float : PyVal → Bool
  | .float _ => true
  | _ => false

/-- `isinstance(v, str)`. -/
def isinst_str : PyVal → Bool
  | .str _ => true
  | _ => false

/-- `isinstance(v, list)`. -/
def isinst_list : PyVal → Bool
  | .pylist _ => true
  | _ => false

/-- The raw field values handed to the `State` dataclass before
`__post_init__` runs. -/
structure RawState where
  messages : PyVal
  username : PyVal
  income : PyVal
  budget_for_expenses : PyVal
  expense : PyVal
  expenses : PyVal
  savings_goal : PyVal
  savings : PyVal
  currency : PyVal
  summary : PyVal

/-- `State.__post_init__` (`src/state.py` lines 22–43): each field whose
value fails the `isinstance` check against the type configured in
`PROJECT_CONFIG["state_variables"]` is silently replaced by the default
from `PROJECT_CONFIG["state_defaults"]`.  One genuine exception path
exists: `state_defaults` has no `"messages"` key, so a non-list
`messages` value hits a `KeyError` (line 25); every other branch is
total. -/
def post_init (r : RawState) : Except String RawState :=
  if ¬ isinst_list r.messages then .error "KeyError: messages"
  else .ok
    { messages := r.messages
      expenses := if isinst_list r.expenses then r.expenses else .pylist []
      username := if isinst_str r.username then r.username else .str ""
      income := if isinst_float r.income then r.income else .float 0
      budget_for_expenses :=
        if isinst_float r.budget_for_expenses then r.budget_for_expenses else .float 0
      expense := if isinst_float r.expense then r.expense else .float 0
      savings_goal := if isinst_float r.savings_goal then r.savings_goal else .float 0
      savings := if isinst_float r.savings then r.savings else .float 0
      currency := if isinst_str r.currency then r.currency else .str ""
      summary := if isinst_str r.summary then r.summary else .str "" }

/-! ## Helper lemmas -/

/-- `containsSub` computes list-infix containment. -/
theorem containsSub_correct (p s : List Char) :
    containsSub p s = true ↔ p <:+: s := by
  induction s with
  | nil =>
      simp [containsSub, List.isPrefixOf_iff_prefix, List.infix_nil, List.prefix_nil]
  | cons c t ih =>
      simp [containsSub, List.isPrefixOf_iff_prefix, List.infix_cons_iff, ih]

/-- Python `sum` over the `amount` fields as a left fold. -/
theorem foldl_amount_eq_sum (l : List Expense) (acc : ℚ) :
    l.foldl (fun a e => a + e.amount) acc = acc + (l.map Expense.amount).sum := by
  induction l generalizing acc with
  | nil => simp
  | cons e t ih => simp [ih, add_assoc]

/-- The division loop fails with the division-by-zero message exactly
when a zero occurs among the divisors it walks. -/
theorem divLoop_error_iff (t : List ℚ) (acc : ℚ) :
    divLoop acc t = .error "Division by zero." ↔ 0 ∈ t := by
  induction t generalizing acc with
  | nil => simp [divLoop]
  | cons n rest ih =>
      by_cases hn : n = 0
      · subst hn; simp [divLoop]
      · simp [divLoop, hn, ih, Ne.symm hn]

/-! ## Claims -/

/-- Which savings goals the claims call valid for a given income. -/
def goalValid (income : ℚ) : SavingsGoal → Prop
  | .pctStr p => 0 ≤ p ∧ p ≤ 100
  | .amt a => 0 ≤ a ∧ a ≤ income

/-- The goal resolution in the words of the spec: `income * p/100` for a
percentage string `"p%"`, the number itself otherwise.  (The code
computes `p/100 * income`; the comparison is part of claim C1.) -/
def spec_resolved_savings (income : ℚ) : SavingsGoal → ℚ
  | .pctStr p => income * p / 100
  | .amt a => a

/-- C1: for every income > 0 and every savings goal that is either a
number in `[0, income]` or a percentage string `"p%"` with
`0 ≤ p ≤ 100`, `budget` returns savings equal to the goal resolved to an
absolute value (`income * p/100` for a percentage string, the number
itself otherwise) and `budget_for_expenses = income - savings`, so that
`savings + budget_for_expenses = income` exactly (in the exact-rational
model of Python's arithmetic). -/
theorem C1_budget_resolved_goal_exact_split (income : ℚ) (goal : SavingsGoal)
    (currency : String) (hinc : 0 < income) (hgoal : goalValid income goal) :
    (budget income goal currency).savings = spec_resolved_savings income goal ∧
    (budget income goal currency).budget_for_expenses =
      income - (budget income goal currency).savings ∧
    (budget income goal currency).savings +
      (budget income goal currency).budget_for_expenses = income := by
  cases goal with
  | pctStr p =>
      refine ⟨?_, ?_, ?_⟩ <;> simp [budget, spec_resolved_savings] <;> ring
  | amt a =>
      refine ⟨?_, ?_, ?_⟩ <;> simp [budget, spec_resolved_savings]

/-- Witness for C1 at `income = 500000`, goal `"20%"`. -/
theorem C1_budget_resolved_goal_exact_split_witness :
    (0:ℚ) < 500000 ∧ goalValid 500000 (.pctStr 20) ∧
    ((budget 500000 (.pctStr 20) "NGN").savings =
        spec_resolved_savings 500000 (.pctStr 20) ∧
      (budget 500000 (.pctStr 20) "NGN").budget_for_expenses =
        500000 - (budget 500000 (.pctStr 20) "NGN").savings ∧
      (budget 500000 (.pctStr 20) "NGN").savings +
        (budget 500000 (.pctStr 20) "NGN").budget_for_expenses = 500000) :=
  ⟨by norm_num, by constructor <;> norm_num,
    C1_budget_resolved_goal_exact_split 500000 (.pctStr 20) "NGN" (by norm_num)
      (by constructor <;> norm_num)⟩

/-- C4 counterexample: with a zero in the *first* position, `math_tool`
does not fail — `math_tool([0, 2], "divide")` returns `0.0`, because the
loop checks only the divisors `numbers[1:]` against zero. -/
theorem C4_zero_dividend_returns_ok :
    math_tool [0, 2] "divide" = .ok 0 := by
  simp [math_tool, divLoop]

/-- C4 amended: for `operation = "divide"` on a list of at least two
numbers, `math_tool` fails with the division-by-zero error exactly when
a zero occurs among the elements after the first (the divisors); a zero
in the first position (the dividend) does not fail. -/
theorem C4_divide_zero_divisor_iff (numbers : List ℚ) (h2 : 2 ≤ numbers.length) :
    math_tool numbers "divide" = .error "Division by zero." ↔
      0 ∈ numbers.tail := by
  match numbers, h2 with
  | a :: b :: t, _ =>
      simpa [math_tool] using divLoop_error_iff (b :: t) a

/-- Witness for C4 amended at `[1, 0]`. -/
theorem C4_divide_zero_divisor_iff_witness :
    math_tool [1, 0] "divide" = .error "Division by zero." :=
  (C4_divide_zero_divisor_iff [1, 0] (by norm_num)).mpr (by norm_num)

/-- C5 counterexample: `budget` has no error channel at all (lines 29–41
of `src/tools.py` contain no validation and no `raise`); at
`income = -100` it returns a normal result instead of failing with
`InvalidInput`. -/
theorem C5_negative_income_returns_result :
    budget (-100) (.amt 50) "NGN" =
      { income := -100, savings := 50, budget_for_expenses := -150,
        currency := "NGN" } := by
  simp only [budget]
  norm_num

/-- C5 amended: for every income ≤ 0 (any goal, any currency), `budget`
does not fail: it returns the usual result with the goal resolved and
`budget_for_expenses = income - savings`, income validation being
absent from the code. -/
theorem C5_budget_accepts_nonpositive_income (income : ℚ) (goal : SavingsGoal)
    (currency : String) (h : income ≤ 0) :
    budget income goal currency =
      { income := income
        savings := spec_resolved_savings income goal
        budget_for_expenses := income - spec_resolved_savings income goal
        currency := currency } := by
  cases goal <;> simp [budget, spec_resolved_savings] <;> ring

/-- Witness for C5 amended at `income = -100`. -/
theorem C5_budget_accepts_nonpositive_income_witness :
    (-100 : ℚ) ≤ 0 ∧
    budget (-100) (.amt 50) "NGN" =
      { income := -100
        savings := spec_resolved_savings (-100) (.amt 50)
        budget_for_expenses := -100 - spec_resolved_savings (-100) (.amt 50)
        currency := "NGN" } :=
  ⟨by norm_num, C5_budget_accepts_nonpositive_income (-100) (.amt 50) "NGN" (by norm_num)⟩

/-- C6 counterexample: `log_expenses` on the empty sequence does not fail
with `InvalidInput`; it returns a total of `0` (the code, lines 65–71 of
`src/tools.py`, performs no validation and contains no `raise`). -/
theorem C6_empty_expenses_returns_total :
    log_expenses [] "NGN" = { expense := 0, expenses := [], currency := "NGN" } :=
  rfl

/-- C6 amended: `log_expenses` performs no validation at all: for every
sequence — empty, or with zero or negative amounts — it returns the sum
of the amounts, the list unchanged and the currency, never an error. -/
theorem C6_log_expenses_no_validation (expenses : List Expense) (currency : String) :
    log_expenses expenses currency =
      { expense := (expenses.map Expense.amount).sum
        expenses := expenses
        currency := currency } := by
  simp [log_expenses, foldl_amount_eq_sum]

/-- C2: the routing decision — empty transcript ends the turn; a latest
message carrying at least one tool call routes to `store_memory`
(ExecutingTools) regardless of length; otherwise length > 10 routes to
`summarize_conversation` (Summarizing) and length ≤ 10 ends the turn. -/
theorem C2_route_message_decision (s : State) :
    (s.messages = [] → route_message s = "__end__") ∧
    (∀ m, s.messages.getLast? = some m → m.tool_calls ≠ [] →
      route_message s = "store_memory") ∧
    (∀ m, s.messages.getLast? = some m → m.tool_calls = [] →
      10 < s.messages.length → route_message s = "summarize_conversation") ∧
    (∀ m, s.messages.getLast? = some m → m.tool_calls = [] →
      s.messages.length ≤ 10 → route_message s = "__end__") := by
  refine ⟨?_, ?_, ?_, ?_⟩
  · intro h
    simp [route_message, h]
  · intro m hm htc
    simp [route_message, hm, htc]
  · intro m hm htc hlen
    simp [route_message, hm, htc, hlen]
  · intro m hm htc hlen
    simp [route_message, hm, htc, Nat.not_lt.mpr hlen]

/-- Witness for C2: a transcript of length 11 whose last message has no
tool call routes to Summarizing, not Done. -/
theorem C2_route_message_decision_witness :
    route_message
      { messages := List.replicate 10 ⟨"user", "m", [], ""⟩ ++
          [⟨"assistant", "r", [], ""⟩] } = "summarize_conversation" :=
  (C2_route_message_decision _).2.2.1 ⟨"assistant", "r", [], ""⟩ (by rfl) rfl
    (by simp)

/-- C9: `filter_content` replaces the whole message with the fixed
warning exactly when one of the four denylist keywords occurs as a
substring of the lower-cased content (case-insensitive substring match,
not word match), returns the content unchanged otherwise, and hence
wholly replaces a benign reply that merely contains such a substring
(witnessed here by "I hate long queues"). -/
theorem C9_filter_content_characterization (content : String) :
    (filter_content content = warning_message ↔
      ∃ kw ∈ inappropriate_keywords, kw.data <:+: (pyLower content).data) ∧
    (filter_content content = warning_message ∨ filter_content content = content) ∧
    filter_content "I hate long queues" = warning_message := by
  refine ⟨⟨?_, ?_⟩, ?_, by decide⟩
  · intro h
    by_cases hb : inappropriate_keywords.any
        (fun keyword => strContains keyword (pyLower content)) = true
    · rcases List.any_eq_true.mp hb with ⟨kw, hkw, hc⟩
      exact ⟨kw, hkw, (containsSub_correct _ _).mp hc⟩
    · have hc : content = warning_message := by
        simpa [filter_content, hb] using h
      exfalso
      apply hb
      rw [hc]
      decide
  · rintro ⟨kw, hkw, hinf⟩
    have hc : strContains kw (pyLower content) = true :=
      (containsSub_correct _ _).mpr hinf
    have hb : inappropriate_keywords.any
        (fun keyword => strContains keyword (pyLower content)) = true :=
      List.any_eq_true.mpr ⟨kw, hkw, hc⟩
    simp [filter_content, hb]
  · by_cases hb : inappropriate_keywords.any
        (fun keyword => strContains keyword (pyLower content)) = true <;>
      simp [filter_content, hb]

/-- C7: the Orchestrator's merge of `log_expenses` results is associative
across turns — logging `[a]` and merging, then logging `[b]` and
merging, leaves the same cumulative `expense` and the same concatenated
ledger as logging `[a, b]` once (exact-rational model of the float
addition). -/
theorem C7_log_merge_associative (s : State) (a b : Expense) (c i1 i2 i3 : String) :
    (runToolTurn (runToolTurn s [.logCall [a] c i1]) [.logCall [b] c i2]).expense =
      (runToolTurn s [.logCall [a, b] c i3]).expense ∧
    (runToolTurn (runToolTurn s [.logCall [a] c i1]) [.logCall [b] c i2]).expenses =
      (runToolTurn s [.logCall [a, b] c i3]).expenses := by
  constructor
  · simp [runToolTurn, store_memory, toolLoop, execToolCall, log_expenses,
      applyUpdates]
    ring
  · simp [runToolTurn, store_memory, toolLoop, execToolCall, log_expenses,
      applyUpdates]

/-- C8: in a single assistant batch holding two `log_expenses` calls, each
call's update is computed from the pre-batch state and the second
overwrites the first in the `updates` dictionary, so the merged state
adds only the second call's total to the pre-batch `expense` and appends
only the second call's entries to the pre-batch ledger — while the
transcript still receives one tool-result record per call, both present
and correlated by id. -/
theorem C8_batch_last_log_wins (s : State) (es1 es2 : List Expense)
    (c1 c2 i1 i2 : String) :
    (runToolTurn s [.logCall es1 c1 i1, .logCall es2 c2 i2]).expense =
      s.expense + (es2.map Expense.amount).sum ∧
    (runToolTurn s [.logCall es1 c1 i1, .logCall es2 c2 i2]).expenses =
      s.expenses ++ es2 ∧
    (runToolTurn s [.logCall es1 c1 i1, .logCall es2 c2 i2]).messages =
      s.messages ++ [⟨"assistant", "", [.logCall es1 c1 i1, .logCall es2 c2 i2], ""⟩]
        ++ [⟨"tool", "Expenses logged! Total: " ++
              fmtMoney ((es1.map Expense.amount).sum) ++ " " ++ c1, [], i1⟩,
            ⟨"tool", "Expenses logged! Total: " ++
              fmtMoney ((es2.map Expense.amount).sum) ++ " " ++ c2, [], i2⟩] := by
  refine ⟨?_, ?_, ?_⟩ <;>
    simp [runToolTurn, store_memory, toolLoop, execToolCall, log_expenses,
      applyUpdates, foldl_amount_eq_sum, add_comm, ToolCall.id]

/-- C3, evaluated at the failing scenario: when every Model Gateway
invocation raises, `call_model` invokes the gateway exactly **once** —
not 3 times — because the blanket `except Exception` inside the function
returns an error-message dictionary instead of re-raising, so the
tenacity `@retry(stop=stop_after_attempt(3))` wrapper sees a normal
return on the first attempt and never retries.  The turn still
produces exactly one assistant-role message stating the failure reason,
the returned update holds nothing but that message (no other Session
State field is touched), and routing on the resulting transcript ends
the turn. -/
theorem C3_failing_gateway_one_attempt (sniff : String → Option ToolCall)
    (gw : Nat → Except String GwResponse) (reason : String)
    (hgw : ∀ n, gw n = .error reason) :
    call_model sniff gw =
      (.ok [⟨"assistant", "Error: Failed to process request due to " ++ reason,
          [], ""⟩], 1) ∧
    ∀ pre : State, pre.messages.length ≤ 9 →
      route_message { pre with messages := pre.messages ++
          [⟨"assistant", "Error: Failed to process request due to " ++ reason,
            [], ""⟩] } = "__end__" := by
  constructor
  · simp [call_model, tenacityRetry, call_model_once, hgw 0]
  · intro pre hlen
    have hlast : (pre.messages ++
        [(⟨"assistant", "Error: Failed to process request due to " ++ reason,
          [], ""⟩ : Message)]).getLast? =
        some ⟨"assistant", "Error: Failed to process request due to " ++ reason,
          [], ""⟩ :=
      List.getLast?_concat _
    simp only [route_message, hlast]
    have hlen' : ¬ 10 < pre.messages.length + 1 := by omega
    simp [hlen']

/-- Witness for C3 at a gateway that always raises "API timeout" and an
empty pre-turn transcript. -/
theorem C3_failing_gateway_one_attempt_witness :
    call_model (fun _ => none) (fun _ => .error "API timeout") =
      (.ok [⟨"assistant", "Error: Failed to process request due to " ++ "API timeout",
          [], ""⟩], 1) ∧
    route_message { messages := [⟨"assistant",
        "Error: Failed to process request due to " ++ "API timeout", [], ""⟩] } =
      "__end__" :=
  ⟨(C3_failing_gateway_one_attempt (fun _ => none) (fun _ => .error "API timeout")
      "API timeout" (fun _ => rfl)).1,
    (C3_failing_gateway_one_attempt (fun _ => none) (fun _ => .error "API timeout")
      "API timeout" (fun _ => rfl)).2 {} (by decide)⟩

/-- C10: `__post_init__` checks every scalar field with `isinstance`
against the exact configured type, so a numeric field supplied as a
Python `int` (e.g. `income=5000` instead of `5000.0`) is a type
violation and is silently reset to its default `0.0`; no exception is
raised (the sole exception path of the method, the missing
`state_defaults["messages"]` key, needs a non-list `messages` value and
is excluded by the hypothesis). -/
theorem C10_int_numeric_fields_reset (r : RawState) (n1 n2 n3 n4 n5 : ℤ)
    (hmsg : isinst_list r.messages = true) :
    ∃ r', post_init { r with
        income := PyVal.int n1
        budget_for_expenses := PyVal.int n2
        expense := PyVal.int n3
        savings_goal := PyVal.int n4
        savings := PyVal.int n5 } =
      .ok r' ∧
      r'.income = PyVal.float 0 ∧ r'.budget_for_expenses = PyVal.float 0 ∧
      r'.expense = PyVal.float 0 ∧ r'.savings_goal = PyVal.float 0 ∧
      r'.savings = PyVal.float 0 := by
  unfold post_init
  rw [if_neg (by simp [hmsg])]
  exact ⟨_, rfl, by simp [isinst_float], by simp [isinst_float],
    by simp [isinst_float], by simp [isinst_float], by simp [isinst_float]⟩

/-- Witness for C10 at `income = 5000` supplied as an `int` (all list
fields proper lists, all other scalars well-typed). -/
theorem C10_int_numeric_fields_reset_witness :
    isinst_list (PyVal.pylist []) = true ∧
    ∃ r', post_init
        { messages := PyVal.pylist []
          username := PyVal.str ""
          income := PyVal.int 5000
          budget_for_expenses := PyVal.int 0
          expense := PyVal.int 0
          expenses := PyVal.pylist []
          savings_goal := PyVal.int 0
          savings := PyVal.int 0
          currency := PyVal.str "NGN"
          summary := PyVal.str "" } = .ok r' ∧
      r'.income = PyVal.float 0 ∧ r'.budget_for_expenses = PyVal.float 0 ∧
      r'.expense = PyVal.float 0 ∧ r'.savings_goal = PyVal.float 0 ∧
      r'.savings = PyVal.float 0 :=
  ⟨rfl, C10_int_numeric_fields_reset
    { messages := PyVal.pylist []
      username := PyVal.str ""
      income := PyVal.float 0
      budget_for_expenses := PyVal.float 0
      expense := PyVal.float 0
      expenses := PyVal.pylist []
      savings_goal := PyVal.float 0
      savings := PyVal.float 0
      currency := PyVal.str "NGN"
      summary := PyVal.str "" } 5000 0 0 0 0 rfl⟩

end AzaMan
